import Mathlib

/-
Verification of the circuit-breaker settlement validator.

The development shallowly embeds the validator's data model and checks:
Python integers become Int, exact fractions become Rat, and fallible code
(raising ValueError, KeyError or ZeroDivisionError) returns Except PyErr.
Loops with early return become structural recursion, Python dicts become
association lists with insertion-order semantics.
-/

namespace CircuitBreaker

/-- Byte strings (addresses, calldata, order uids) are modelled as lists of
bytes; only equality on them is ever used by the validator. -/
abbrev HexB := List Nat

/-- Python exceptions raised by the validator core. -/
inductive PyErr where
  | valueError
  | keyError
  | zeroDivisionError
deriving DecidableEq, Repr

instance {ε α : Type} [DecidableEq ε] [DecidableEq α] : DecidableEq (Except ε α) := fun x y =>
  match x, y with
  | .error e, .error f => decidable_of_iff (e = f) (by simp)
  | .error _, .ok _ => isFalse (fun h => Except.noConfusion h)
  | .ok _, .error _ => isFalse (fun h => Except.noConfusion h)
  | .ok a, .ok b => decidable_of_iff (a = b) (by simp)

/-- Exact ceiling, as math.ceil on a Fraction. -/
def pyCeil (q : ℚ) : ℤ := ⌈q⌉

/-- Conversion int(q) of a Fraction: truncation toward zero. -/
def pyTruncInt (q : ℚ) : ℤ := if 0 ≤ q then ⌊q⌋ else ⌈q⌉

/-- Built-in round on a Fraction: round half to even. -/
def pyRound (q : ℚ) : ℤ :=
  if q - (⌊q⌋ : ℚ) < 1/2 then ⌊q⌋
  else if 1/2 < q - (⌊q⌋ : ℚ) then ⌊q⌋ + 1
  else if ⌊q⌋ % 2 = 0 then ⌊q⌋ else ⌊q⌋ + 1

/-- Fraction(a, b): raises ZeroDivisionError on a zero denominator. -/
def pyFrac (a b : ℤ) : Except PyErr ℚ :=
  if b = 0 then .error .zeroDivisionError else .ok ((a : ℚ) / (b : ℚ))

/-- Division of exact fractions, raising on a zero divisor. -/
def pyDiv (a b : ℚ) : Except PyErr ℚ :=
  if b = 0 then .error .zeroDivisionError else .ok (a / b)

/-- Lookup in a Python dict modelled as an association list. -/
def dictGet {α : Type} (d : List (HexB × α)) (k : HexB) : Option α :=
  (d.find? (fun p => p.1 == k)).map Prod.snd

/-- Insertion into a Python dict: replaces the value at an existing key in
place, otherwise appends, preserving insertion order. -/
def dictInsert {α : Type} (d : List (HexB × α)) (k : HexB) (v : α) : List (HexB × α) :=
  if d.any (fun p => p.1 == k) then
    d.map (fun p => if p.1 == k then (k, v) else p)
  else d ++ [(k, v)]

/-- Quote, models.py. -/
structure Quote where
  sell_amount : ℤ
  buy_amount : ℤ
  fee_amount : ℤ
deriving DecidableEq, Repr

/-- Hook, models.py. -/
structure Hook where
  target : HexB
  calldata : HexB
  gas_limit : ℤ
deriving DecidableEq, Repr

/-- Hooks, models.py. -/
structure Hooks where
  pre_hooks : List Hook
  post_hooks : List Hook
deriving DecidableEq, Repr

/-- OnchainTrade, models.py (fields of Trade inlined). -/
structure OnchainTrade where
  order_uid : HexB
  sell_amount : ℤ
  buy_amount : ℤ
  owner : HexB
  sell_token : HexB
  buy_token : HexB
  limit_sell_amount : ℤ
  limit_buy_amount : ℤ
  kind : String
deriving DecidableEq, Repr

/-- OffchainTrade, models.py (fields of Trade inlined). -/
structure OffchainTrade where
  order_uid : HexB
  sell_amount : ℤ
  buy_amount : ℤ
  already_executed_amount : ℤ
deriving DecidableEq, Repr

/-- Quote.effective_sell_amount, models.py. -/
def Quote.effective_sell_amount (q : Quote) (kind : String) : Except PyErr ℤ :=
  if kind = "sell" then .ok q.sell_amount
  else if kind = "buy" then .ok (q.sell_amount + q.fee_amount)
  else .error .valueError

/-- Quote.effective_buy_amount, models.py. -/
def Quote.effective_buy_amount (q : Quote) (kind : String) : Except PyErr ℤ :=
  if kind = "sell" then do
    let exchange_rate ← pyFrac q.buy_amount q.sell_amount
    pure (pyCeil (((q.sell_amount - q.fee_amount : ℤ) : ℚ) * exchange_rate))
  else if kind = "buy" then .ok q.buy_amount
  else .error .valueError

/-- OnchainTrade.volume, models.py. -/
def OnchainTrade.volume (t : OnchainTrade) : Except PyErr ℤ :=
  if t.kind = "sell" then .ok t.buy_amount
  else if t.kind = "buy" then .ok t.sell_amount
  else .error .valueError

/-- OnchainTrade.surplus, models.py: kind sell uses math.ceil on an exact
fraction, kind buy uses int(), which truncates toward zero. -/
def OnchainTrade.surplus (t : OnchainTrade) : Except PyErr ℤ :=
  if t.kind = "sell" then do
    let r ← pyFrac t.sell_amount t.limit_sell_amount
    pure (t.buy_amount - pyCeil ((t.limit_buy_amount : ℚ) * r))
  else if t.kind = "buy" then do
    let r ← pyFrac t.buy_amount t.limit_buy_amount
    pure (pyTruncInt ((t.limit_sell_amount : ℚ) * r) - t.sell_amount)
  else .error .valueError

/-- OnchainTrade.surplus_token, models.py. -/
def OnchainTrade.surplus_token (t : OnchainTrade) : Except PyErr HexB :=
  if t.kind = "sell" then .ok t.buy_token
  else if t.kind = "buy" then .ok t.sell_token
  else .error .valueError

/-- OnchainTrade.price_improvement, models.py. -/
def OnchainTrade.price_improvement (t : OnchainTrade) (quote : Quote) : Except PyErr ℤ := do
  let effective_sell_amount ← quote.effective_sell_amount t.kind
  let effective_buy_amount ← quote.effective_buy_amount t.kind
  let quote_price_improvement ←
    if t.kind = "sell" then do
      let r ← pyFrac t.sell_amount effective_sell_amount
      pure (t.buy_amount - pyCeil ((effective_buy_amount : ℚ) * r))
    else if t.kind = "buy" then do
      let r ← pyFrac t.buy_amount effective_buy_amount
      pure (pyTruncInt ((effective_sell_amount : ℚ) * r) - t.sell_amount)
    else Except.error PyErr.valueError
  let limit_price_improvement ← t.surplus
  pure (min quote_price_improvement limit_price_improvement)

/-- FeePolicy with its three concrete variants, models.py. -/
inductive FeePolicy where
  | volumeFee (volume_factor : ℚ)
  | surplusFee (surplus_factor surplus_max_volume_factor : ℚ)
  | priceImprovementFee (price_improvement_factor price_improvement_max_volume_factor : ℚ)
      (quote : Quote)
deriving DecidableEq, Repr

/-- The reverse_protocol_fee methods of VolumeFeePolicy, SurplusFeePolicy and
PriceImprovementFeePolicy, models.py. Each returns a fresh trade with one
amount adjusted (the embedding is pure, matching the deep-copy idiom). -/
def reverse_protocol_fee : FeePolicy → OnchainTrade → Except PyErr OnchainTrade
  | .volumeFee volume_factor, trade => do
    let volume ← trade.volume
    if trade.kind = "sell" then do
      let q ← pyDiv ((volume : ℚ) * volume_factor) (1 - volume_factor)
      pure { trade with buy_amount := trade.buy_amount + pyRound q }
    else if trade.kind = "buy" then do
      let q ← pyDiv ((volume : ℚ) * volume_factor) (1 + volume_factor)
      pure { trade with sell_amount := trade.sell_amount - pyRound q }
    else .error .valueError
  | .surplusFee surplus_factor surplus_max_volume_factor, trade => do
    let surplus ← trade.surplus
    let volume ← trade.volume
    let sq ← pyDiv ((surplus : ℚ) * surplus_factor) (1 - surplus_factor)
    if trade.kind = "sell" then do
      let vq ← pyDiv ((volume : ℚ) * surplus_max_volume_factor) (1 - surplus_max_volume_factor)
      pure { trade with buy_amount := trade.buy_amount + min (pyRound sq) (pyRound vq) }
    else if trade.kind = "buy" then do
      let vq ← pyDiv ((volume : ℚ) * surplus_max_volume_factor) (1 + surplus_max_volume_factor)
      pure { trade with sell_amount := trade.sell_amount - min (pyRound sq) (pyRound vq) }
    else .error .valueError
  | .priceImprovementFee pi_factor pi_max_volume_factor quote, trade => do
    let price_improvement ← trade.price_improvement quote
    let volume ← trade.volume
    let pq ← pyDiv ((price_improvement : ℚ) * pi_factor) (1 - pi_factor)
    if trade.kind = "sell" then do
      let vq ← pyDiv ((volume : ℚ) * pi_max_volume_factor) (1 - pi_max_volume_factor)
      pure { trade with buy_amount := trade.buy_amount + min (max 0 (pyRound pq)) (pyRound vq) }
    else if trade.kind = "buy" then do
      let vq ← pyDiv ((volume : ℚ) * pi_max_volume_factor) (1 + pi_max_volume_factor)
      pure { trade with sell_amount := trade.sell_amount - min (max 0 (pyRound pq)) (pyRound vq) }
    else .error .valueError

/-- OnchainTrade.raw_surplus, models.py: reverse the fee policies in reverse
order, then take the surplus of the reconstructed trade. -/
def OnchainTrade.raw_surplus (t : OnchainTrade) (fee_policies : List FeePolicy) :
    Except PyErr ℤ := do
  let raw_trade ← fee_policies.reverse.foldlM (fun tr p => reverse_protocol_fee p tr) t
  raw_trade.surplus

/-- OnchainSettlementData, models.py. -/
structure OnchainSettlementData where
  auction_id : ℤ
  tx_hash : HexB
  solver : HexB
  trades : List OnchainTrade
  hook_candidates : Hooks
deriving DecidableEq, Repr

/-- OffchainSettlementData, models.py. Dicts and sets become association
lists and membership lists. -/
structure OffchainSettlementData where
  auction_id : ℤ
  solver : HexB
  trades : List OffchainTrade
  score : ℤ
  trade_fee_policies : List (HexB × List FeePolicy)
  valid_orders : List HexB
  jit_order_addresses : List HexB
  native_prices : List (HexB × ℤ)
  order_hooks : List (HexB × Hooks)
deriving DecidableEq, Repr

/-- NATIVE_TOKEN_PRICE, scores.py. -/
def NATIVE_TOKEN_PRICE : ℤ := 10 ^ 18

/-- The conversion of a raw surplus to the buy token denomination using the
limit price, scores.py: applied when the surplus token is the sell token. -/
def buy_token_surplus (trade : OnchainTrade) (st : HexB) (raw_surplus : ℤ) :
    Except PyErr ℚ :=
  if st = trade.sell_token then do
    let r ← pyFrac trade.limit_buy_amount trade.limit_sell_amount
    pure ((raw_surplus : ℚ) * r)
  else pure ((raw_surplus : ℚ))

/-- The for loop of compute_score, scores.py, with its running total. A
missing native price for a buy token raises KeyError. -/
def score_loop (ofc : OffchainSettlementData) : ℤ → List OnchainTrade → Except PyErr ℤ
  | score, [] => .ok score
  | score, trade :: rest => do
    let raw_surplus ← trade.raw_surplus ((dictGet ofc.trade_fee_policies trade.order_uid).getD [])
    let st ← trade.surplus_token
    let raw_surplus_buy_token ← buy_token_surplus trade st raw_surplus
    match dictGet ofc.native_prices trade.buy_token with
    | none => Except.error PyErr.keyError
    | some price =>
      score_loop ofc (score + pyRound (raw_surplus_buy_token * ((price : ℚ) / (NATIVE_TOKEN_PRICE : ℚ)))) rest

/-- compute_score, scores.py. -/
def compute_score (onc : OnchainSettlementData) (ofc : OffchainSettlementData) :
    Except PyErr ℤ :=
  score_loop ofc 0 onc.trades

/-- SCORE_CHECK_THRESHOLD, check_tx.py. -/
def SCORE_CHECK_THRESHOLD : ℤ := 10 ^ 12

/-- check_solver, check_tx.py. -/
def check_solver (onc : OnchainSettlementData) (ofc : OffchainSettlementData) :
    Except PyErr Bool :=
  .ok (decide (onc.solver = ofc.solver))

/-- Building the per-uid trade dict of check_orders, check_tx.py. -/
def trades_dict {α : Type} (uid : α → HexB) (ts : List α) : List (HexB × α) :=
  ts.foldl (fun d t => dictInsert d (uid t) t) []

/-- Equality of key sets of two dicts, as dict keys comparison. -/
def same_keys {α β : Type} (d1 : List (HexB × α)) (d2 : List (HexB × β)) : Bool :=
  d1.all (fun p => d2.any (fun q => q.1 == p.1)) &&
    d2.all (fun p => d1.any (fun q => q.1 == p.1))

/-- Check 2 of check_orders, check_tx.py: executed amounts match proposed
amounts, short-circuiting on the first mismatch. -/
def amounts_match (ond : List (HexB × OnchainTrade)) :
    List (HexB × OffchainTrade) → Except PyErr Bool
  | [] => .ok true
  | (order_uid, offchain_trade) :: rest =>
    match dictGet ond order_uid with
    | none => .error .keyError
    | some onchain_trade =>
      if onchain_trade.sell_amount ≠ offchain_trade.sell_amount ∨
          onchain_trade.buy_amount ≠ offchain_trade.buy_amount then .ok false
      else amounts_match ond rest

/-- Check 3 of check_orders, check_tx.py: surplus legitimacy for
non-standard orders. -/
def surplus_legit (ofc : OffchainSettlementData) :
    List (HexB × OnchainTrade) → Except PyErr Bool
  | [] => .ok true
  | (order_uid, onchain_trade) :: rest => do
    let s ← onchain_trade.surplus
    if 0 < s ∧ ¬ order_uid ∈ ofc.valid_orders ∧
        ¬ onchain_trade.owner ∈ ofc.jit_order_addresses then .ok false
    else surplus_legit ofc rest

/-- check_orders, check_tx.py. -/
def check_orders (onc : OnchainSettlementData) (ofc : OffchainSettlementData) :
    Except PyErr Bool := do
  let onchain_trades_dict := trades_dict OnchainTrade.order_uid onc.trades
  let offchain_trades_dict := trades_dict OffchainTrade.order_uid ofc.trades
  if ¬ same_keys onchain_trades_dict offchain_trades_dict then .ok false
  else do
    let amounts_ok ← amounts_match onchain_trades_dict offchain_trades_dict
    if ¬ amounts_ok then .ok false
    else surplus_legit ofc onchain_trades_dict

/-- check_score, check_tx.py. -/
def check_score (onc : OnchainSettlementData) (ofc : OffchainSettlementData) :
    Except PyErr Bool := do
  let computed_score ← compute_score onc ofc
  if SCORE_CHECK_THRESHOLD < ofc.score - computed_score then .ok false else .ok true

/-- The candidate loop of the hook execution helper in check_tx.py: find a
candidate matching target and calldata; on the first such candidate, a
non-zero gas limit below the required one fails, otherwise the hook counts
as executed; no match at all fails. -/
def hook_execution_loop (hook : Hook) : List Hook → Bool
  | [] => false
  | hook_candidate :: rest =>
    if hook_candidate.target = hook.target ∧ hook_candidate.calldata = hook.calldata then
      if hook_candidate.gas_limit ≠ 0 ∧ hook_candidate.gas_limit < hook.gas_limit then false
      else true
    else hook_execution_loop hook rest

/-- The hook execution helper of check_tx.py (leading underscore dropped
from the Python name). The order uid argument is only used for logging in
the source and is kept for shape. -/
def check_hook_execution (onchain_data : OnchainSettlementData) (order_uid : HexB)
    (hook : Hook) (hook_type : String) : Bool :=
  let candidates :=
    if hook_type = "pre" then onchain_data.hook_candidates.pre_hooks
    else onchain_data.hook_candidates.post_hooks
  hook_execution_loop hook candidates

/-- The helper checking whether any order has hooks, check_tx.py. -/
def has_hooks (offchain_data : OffchainSettlementData) : Bool :=
  offchain_data.order_hooks.any
    (fun p => !p.2.pre_hooks.isEmpty || !p.2.post_hooks.isEmpty)

/-- The helper finding the off-chain trade for an order uid, check_tx.py;
raises ValueError when the uid is not among the off-chain trades. -/
def find_offchain_trade (offchain_data : OffchainSettlementData) (order_uid : HexB) :
    Except PyErr OffchainTrade :=
  match offchain_data.trades.find? (fun t => t.order_uid == order_uid) with
  | some trade => .ok trade
  | none => .error .valueError

/-- The per-order hook check of check_tx.py. -/
def check_order_hooks (onchain_data : OnchainSettlementData)
    (offchain_data : OffchainSettlementData) (order_uid : HexB) (hooks : Hooks) :
    Except PyErr Bool := do
  let offchain_trade ← find_offchain_trade offchain_data order_uid
  let is_first_fill : Bool := offchain_trade.already_executed_amount == 0
  let has_no_hook_candidates : Bool :=
    onchain_data.hook_candidates.pre_hooks.isEmpty &&
      onchain_data.hook_candidates.post_hooks.isEmpty
  if has_no_hook_candidates && is_first_fill then .ok false
  else
    let pre_ok : Bool :=
      if is_first_fill then
        hooks.pre_hooks.all
          (fun pre_hook => check_hook_execution onchain_data order_uid pre_hook "pre")
      else
        !(!hooks.pre_hooks.isEmpty &&
          !onchain_data.hook_candidates.pre_hooks.isEmpty &&
          hooks.pre_hooks.any (fun pre_hook =>
            onchain_data.hook_candidates.pre_hooks.any (fun executed_hook =>
              executed_hook.target == pre_hook.target &&
                executed_hook.calldata == pre_hook.calldata)))
    if !pre_ok then .ok false
    else if hooks.post_hooks.all
        (fun post_hook => check_hook_execution onchain_data order_uid post_hook "post") then
      .ok true
    else .ok false

/-- The iteration of check_hooks over the order hooks dict, check_tx.py. -/
def check_hooks_loop (onchain_data : OnchainSettlementData)
    (offchain_data : OffchainSettlementData) :
    List (HexB × Hooks) → Except PyErr Bool
  | [] => .ok true
  | (order_uid, hooks) :: rest => do
    let order_ok ← check_order_hooks onchain_data offchain_data order_uid hooks
    if order_ok then check_hooks_loop onchain_data offchain_data rest else .ok false

/-- check_hooks, check_tx.py. -/
def check_hooks (onchain_data : OnchainSettlementData)
    (offchain_data : OffchainSettlementData) : Except PyErr Bool :=
  if !has_hooks offchain_data then .ok true
  else check_hooks_loop onchain_data offchain_data offchain_data.order_hooks

/-- Failures of inspect, check_tx.py: an uncaught Python exception from a
check, or the InvalidSettlement exception of exceptions.py carrying the
solver and the results of the four checks. -/
inductive InspectError where
  | pyErr (e : PyErr)
  | invalidSettlement (solver : HexB) (results : List Bool)
deriving DecidableEq, Repr

/-- The list comprehension of inspect, check_tx.py, evaluating the four
checks in order; the first raised exception propagates. -/
def run_checks (onc : OnchainSettlementData) (ofc : OffchainSettlementData) :
    Except PyErr (List Bool) := do
  let r1 ← check_solver onc ofc
  let r2 ← check_orders onc ofc
  let r3 ← check_score onc ofc
  let r4 ← check_hooks onc ofc
  pure [r1, r2, r3, r4]

/-- inspect, check_tx.py. -/
def inspect (onc : OnchainSettlementData) (ofc : OffchainSettlementData) :
    Except InspectError Unit :=
  match run_checks onc ofc with
  | .error e => .error (.pyErr e)
  | .ok results =>
    if results.all id then .ok () else .error (.invalidSettlement onc.solver results)

/-! Concrete data used to instantiate the theorems below. -/

/-- A hook expected by order uidA. -/
def hookA : Hook := ⟨[10], [11], 100⟩

/-- The uid of an order on a subsequent fill. -/
def uidA : HexB := [0]

/-- The uid of an order on its first fill with no expected hooks. -/
def uidB : HexB := [1]

/-- The off-chain trade of uidA: already partially executed. -/
def trA : OffchainTrade := ⟨uidA, 0, 0, 1⟩

/-- The off-chain trade of uidB: first fill. -/
def trB : OffchainTrade := ⟨uidB, 0, 0, 0⟩

/-- On-chain data with no hook candidates at all. -/
def onC4 : OnchainSettlementData := ⟨0, [], [], [], ⟨[], []⟩⟩

/-- Off-chain data where uidA expects one pre-hook and uidB expects none. -/
def ofC4 : OffchainSettlementData :=
  ⟨0, [], [trA, trB], 0, [], [], [], [], [(uidA, ⟨[hookA], []⟩), (uidB, ⟨[], []⟩)]⟩

/-- The same off-chain data with the empty entry of uidB removed. -/
def ofC4noB : OffchainSettlementData :=
  ⟨0, [], [trA, trB], 0, [], [], [], [], [(uidA, ⟨[hookA], []⟩)]⟩

/-- A pre-hook expected by the order of trC5. -/
def preC5 : Hook := ⟨[20], [21], 1030000⟩

/-- A post-hook expected by the order of trC5. -/
def postC5 : Hook := ⟨[22], [23], 2040000⟩

/-- An off-chain trade on a subsequent fill. -/
def trC5 : OffchainTrade := ⟨[2], 0, 0, 1000⟩

/-- On-chain data in which the expected pre-hook was executed. -/
def onC5 : OnchainSettlementData := ⟨0, [], [], [], ⟨[preC5], [postC5]⟩⟩

/-- Off-chain data expecting preC5 and postC5 for the order of trC5. -/
def ofC5 : OffchainSettlementData :=
  ⟨0, [], [trC5], 0, [], [], [], [], [([2], ⟨[preC5], [postC5]⟩)]⟩

/-- The same on-chain data without the pre-hook candidate. -/
def onC5b : OnchainSettlementData := ⟨0, [], [], [], ⟨[], [postC5]⟩⟩

/-- An expected hook requiring gas 100. -/
def hookC6 : Hook := ⟨[30], [31], 100⟩

/-- A candidate matching hookC6 on target and calldata with gas 200. -/
def candC6 : Hook := ⟨[30], [31], 200⟩

/-- On-chain data whose only pre-hook candidate is candC6. -/
def onC6 : OnchainSettlementData := ⟨0, [], [], [], ⟨[candC6], []⟩⟩

/-- A hook expected for an order that is not in the settlement. -/
def hookC10 : Hook := ⟨[40], [41], 5⟩

/-- On-chain data for the settlement with no trades. -/
def onC10 : OnchainSettlementData := ⟨0, [], [7], [], ⟨[hookC10], []⟩⟩

/-- Off-chain data with a hooks entry for the unknown order uid 9 and no
trades. -/
def ofC10 : OffchainSettlementData :=
  ⟨0, [7], [], 0, [], [], [], [], [([9], ⟨[hookC10], []⟩)]⟩


/-- A sell trade: 50 of 100 sold, 105 received against a limit of 200. -/
def tSell : OnchainTrade := ⟨[1], 50, 105, [2], [3], [4], 100, 200, "sell"⟩

/-- A buy trade: 100 of 100 bought for 95 against a sell limit of 200. -/
def tBuy : OnchainTrade := ⟨[1], 95, 100, [2], [3], [4], 200, 100, "buy"⟩

/-- An empty settlement whose on-chain and off-chain solvers agree. -/
def onOk : OnchainSettlementData := ⟨0, [], [7], [], ⟨[], []⟩⟩

/-- The off-chain side of the empty settlement. -/
def ofOk : OffchainSettlementData := ⟨0, [7], [], 0, [], [], [], [], []⟩

/-- A trade whose buy token, the token 7, has no native price in ofOk. -/
def tradeMiss : OnchainTrade := ⟨[5], 1, 1, [8], [6], [7], 1, 1, "sell"⟩

/-- A settlement containing tradeMiss. -/
def onMiss : OnchainSettlementData := ⟨0, [], [7], [tradeMiss], ⟨[], []⟩⟩

/-- The trade produced by reversing a one-half volume fee on tSell. -/
def t9 : OnchainTrade :=
  { tSell with buy_amount :=
      (tSell.buy_amount + pyRound (((105 : ℤ) : ℚ) * (1/2) / (1 - 1/2))) }

/-! Helper lemmas about the Except monad. -/

theorem ok_bind {ε α β : Type} (a : α) (f : α → Except ε β) :
    (Except.ok a : Except ε α) >>= f = f a := rfl

theorem error_bind {ε α β : Type} (e : ε) (f : α → Except ε β) :
    (Except.error e : Except ε α) >>= f = Except.error e := rfl

theorem except_bind_ok {ε α β : Type} {x : Except ε α} {f : α → Except ε β} {b : β}
    (h : x >>= f = Except.ok b) : ∃ a, x = Except.ok a ∧ f a = Except.ok b := by
  cases x with
  | error e => rw [error_bind] at h; exact Except.noConfusion h
  | ok a => exact ⟨a, rfl, h⟩

/-- Claim C1: for every OnchainTrade with positive limit amounts (and the
data-model invariant of a non-negative buy amount), surplus() returns, for
kind sell, buy_amount minus the ceiling of limit_buy_amount * sell_amount /
limit_sell_amount, and for kind buy, the floor of limit_sell_amount *
buy_amount / limit_buy_amount minus sell_amount, in exact rational
arithmetic. -/
theorem C1_surplus_formula (t : OnchainTrade)
    (hls : 0 < t.limit_sell_amount) (hlb : 0 < t.limit_buy_amount)
    (hb : 0 ≤ t.buy_amount) :
    (t.kind = "sell" → t.surplus = Except.ok (t.buy_amount -
      ⌈(t.limit_buy_amount : ℚ) * (t.sell_amount : ℚ) / (t.limit_sell_amount : ℚ)⌉)) ∧
    (t.kind = "buy" → t.surplus = Except.ok
      (⌊(t.limit_sell_amount : ℚ) * (t.buy_amount : ℚ) / (t.limit_buy_amount : ℚ)⌋ -
        t.sell_amount)) := by
  constructor
  · intro hk
    rw [OnchainTrade.surplus, if_pos hk, pyFrac, if_neg hls.ne', ok_bind]
    rw [pyCeil, mul_div_assoc]
    rfl
  · intro hk
    have hk2 : ¬ t.kind = "sell" := by rw [hk]; decide
    rw [OnchainTrade.surplus, if_neg hk2, if_pos hk, pyFrac, if_neg hlb.ne', ok_bind]
    have hnn : (0 : ℚ) ≤
        (t.limit_sell_amount : ℚ) * ((t.buy_amount : ℚ) / (t.limit_buy_amount : ℚ)) := by
      apply mul_nonneg
      · exact_mod_cast hls.le
      · apply div_nonneg
        · exact_mod_cast hb
        · exact_mod_cast hlb.le
    rw [pyTruncInt, if_pos hnn, mul_div_assoc]
    rfl

/-- Witness for C1 at concrete sell and buy trades. -/
theorem C1_surplus_formula_witness :
    tSell.surplus = Except.ok (105 - ⌈(200 : ℚ) * (50 : ℚ) / (100 : ℚ)⌉) ∧
    tBuy.surplus = Except.ok (⌊(200 : ℚ) * (100 : ℚ) / (100 : ℚ)⌋ - 95) :=
  ⟨(C1_surplus_formula tSell (by decide) (by decide) (by decide)).1 rfl,
   (C1_surplus_formula tBuy (by decide) (by decide) (by decide)).2 rfl⟩

/-- Claim C2: when no check raises, inspect succeeds exactly when all four
checks pass, and otherwise fails with one InvalidSettlement carrying the
on-chain solver and the results of all four checks; every check is
evaluated, not only the first failing one. -/
theorem C2_inspect_spec (onc : OnchainSettlementData) (ofc : OffchainSettlementData)
    (b1 b2 b3 b4 : Bool)
    (h1 : check_solver onc ofc = Except.ok b1) (h2 : check_orders onc ofc = Except.ok b2)
    (h3 : check_score onc ofc = Except.ok b3) (h4 : check_hooks onc ofc = Except.ok b4) :
    (inspect onc ofc = Except.ok () ↔ (b1 = true ∧ b2 = true ∧ b3 = true ∧ b4 = true)) ∧
    (¬ (b1 = true ∧ b2 = true ∧ b3 = true ∧ b4 = true) →
      inspect onc ofc =
        Except.error (InspectError.invalidSettlement onc.solver [b1, b2, b3, b4])) := by
  have hr : run_checks onc ofc = Except.ok [b1, b2, b3, b4] := by
    rw [run_checks, h1, ok_bind, h2, ok_bind, h3, ok_bind, h4, ok_bind]
    rfl
  rw [inspect, hr]
  cases b1 <;> cases b2 <;> cases b3 <;> cases b4 <;> simp

/-- Witness for C2 at the empty settlement, on which all checks pass. -/
theorem C2_inspect_spec_witness : inspect onOk ofOk = Except.ok () :=
  (C2_inspect_spec onOk ofOk true true true true (by decide) (by decide) (by decide)
    (by decide)).1.mpr ⟨rfl, rfl, rfl, rfl⟩

/-- Claim C3: when compute_score returns a value, the score check passes
exactly when the reported score exceeds it by at most 10 to the 12, fails
exactly one atom beyond that, and always passes when the computed score is
at least the reported one. -/
theorem C3_check_score_spec (onc : OnchainSettlementData) (ofc : OffchainSettlementData)
    (s : ℤ) (h : compute_score onc ofc = Except.ok s) :
    (check_score onc ofc = Except.ok true ↔ ofc.score - s ≤ 10 ^ 12) ∧
    (check_score onc ofc = Except.ok false ↔ 10 ^ 12 < ofc.score - s) ∧
    (ofc.score ≤ s → check_score onc ofc = Except.ok true) := by
  have hc : check_score onc ofc =
      if (10 : ℤ) ^ 12 < ofc.score - s then .ok false else .ok true := by
    rw [check_score, h, ok_bind]; rfl
  by_cases hlt : (10 : ℤ) ^ 12 < ofc.score - s
  · rw [hc, if_pos hlt]
    refine ⟨⟨fun hh => Except.noConfusion hh (fun hh2 => Bool.noConfusion hh2),
        fun hh => absurd hh (not_le.mpr hlt)⟩, ⟨fun _ => hlt, fun _ => rfl⟩, fun hle => ?_⟩
    exfalso
    have h0 : ofc.score - s ≤ 0 := by omega
    have h2 : (0 : ℤ) < 10 ^ 12 := by positivity
    omega
  · rw [hc, if_neg hlt]
    refine ⟨⟨fun _ => not_lt.mp hlt, fun _ => rfl⟩,
      ⟨fun hh => Except.noConfusion hh (fun hh2 => Bool.noConfusion hh2),
        fun hh => absurd hh hlt⟩, fun _ => rfl⟩

/-- Witness for C3 at the empty settlement, whose computed score is 0. -/
theorem C3_check_score_spec_witness : check_score onOk ofOk = Except.ok true :=
  (C3_check_score_spec onOk ofOk 0 (by decide)).1.mpr (by decide)

theorem score_loop_error_of_missing (ofc : OffchainSettlementData) (ts : List OnchainTrade)
    (hm : ∃ t, t ∈ ts ∧ dictGet ofc.native_prices t.buy_token = none) :
    ∀ (acc : ℤ) (n : ℤ), score_loop ofc acc ts ≠ Except.ok n := by
  induction ts with
  | nil =>
    obtain ⟨t, ht, _⟩ := hm
    exact absurd ht (List.not_mem_nil t)
  | cons hd tl ih =>
    intro acc n hok
    rw [score_loop] at hok
    obtain ⟨raw, hraw, hok⟩ := except_bind_ok hok
    obtain ⟨st, hst, hok⟩ := except_bind_ok hok
    obtain ⟨rsb, hrsb, hok⟩ := except_bind_ok hok
    obtain ⟨t, ht, hmiss⟩ := hm
    rcases List.mem_cons.mp ht with hhd | htl
    · subst hhd
      rw [hmiss] at hok
      exact Except.noConfusion hok
    · cases hlook : dictGet ofc.native_prices hd.buy_token with
      | none => rw [hlook] at hok; exact Except.noConfusion hok
      | some price =>
        rw [hlook] at hok
        exact ih ⟨t, htl, hmiss⟩ _ n hok

/-- Claim C7: compute_score of an empty trade list is 0, and when some
trade's buy token is missing from native_prices, compute_score never
returns an integer (the missing price surfaces as an exception). -/
theorem C7_compute_score_spec (onc : OnchainSettlementData) (ofc : OffchainSettlementData) :
    (onc.trades = [] → compute_score onc ofc = Except.ok 0) ∧
    ((∃ t, t ∈ onc.trades ∧ dictGet ofc.native_prices t.buy_token = none) →
      ∀ n : ℤ, compute_score onc ofc ≠ Except.ok n) := by
  constructor
  · intro h
    rw [compute_score, h]
    rfl
  · intro hm n
    exact score_loop_error_of_missing ofc onc.trades hm 0 n

/-- Witness for C7: the empty settlement scores 0, and a settlement with a
trade whose buy token has no native price has no integer score. -/
theorem C7_compute_score_spec_witness :
    compute_score onOk ofOk = Except.ok 0 ∧
    compute_score onMiss ofOk ≠ Except.ok 0 :=
  ⟨(C7_compute_score_spec onOk ofOk).1 rfl,
   (C7_compute_score_spec onMiss ofOk).2 ⟨tradeMiss, by decide, rfl⟩ 0⟩

/-- Counterexample to claim C4: an order with empty expected pre- and
post-hooks fails the hook check when it is a first fill and the on-chain
hook candidates are empty; removing only that order's entry makes the
check pass, so the failure is on account of that order. -/
theorem C4_counterexample :
    check_hooks onC4 ofC4 = Except.ok false ∧
    check_order_hooks onC4 ofC4 uidB ⟨[], []⟩ = Except.ok false ∧
    check_hooks onC4 ofC4noB = Except.ok true := by decide

/-- Claim C4 as amended: an order with empty expected pre- and post-hooks
passes the per-order hook check unless the settlement has no hook
candidates at all and the order is a first fill, in which case the check
fails even for that hook-free order. -/
theorem C4_empty_hooks_order (onc : OnchainSettlementData) (ofc : OffchainSettlementData)
    (order_uid : HexB) (tr : OffchainTrade)
    (hfind : find_offchain_trade ofc order_uid = Except.ok tr) :
    check_order_hooks onc ofc order_uid ⟨[], []⟩ =
      Except.ok (!(onc.hook_candidates.pre_hooks.isEmpty &&
        onc.hook_candidates.post_hooks.isEmpty && (tr.already_executed_amount == 0))) := by
  rw [check_order_hooks, hfind, ok_bind]
  cases h1 : onc.hook_candidates.pre_hooks.isEmpty <;>
    cases h2 : onc.hook_candidates.post_hooks.isEmpty <;>
      cases h3 : (tr.already_executed_amount == 0) <;>
        simp [h1, h2, h3]

/-- Witness for the amended C4 at the first-fill order uidB. -/
theorem C4_empty_hooks_order_witness :
    check_order_hooks onC4 ofC4 uidB ⟨[], []⟩ = Except.ok false :=
  C4_empty_hooks_order onC4 ofC4 uidB trB rfl

/-- Claim C5, code behavior at the failing input: on a subsequent fill the
presence of an expected pre-hook among the pre-hook candidates makes the
check fail, while the same settlement without that candidate passes — the
outcome is not independent of the candidates, contradicting the
repository's own test expectation for this scenario. -/
theorem C5_subsequent_fill_prehook_presence :
    check_hooks onC5 ofC5 = Except.ok false ∧
    check_hooks onC5b ofC5 = Except.ok true := by decide

/-- Counterexample to claim C6: a candidate that matches the expected hook
on target and calldata but has a strictly larger gas limit counts as an
execution, although no candidate is structurally identical to the hook. -/
theorem C6_counterexample :
    check_hook_execution onC6 [3] hookC6 "pre" = true ∧
    hookC6 ∉ onC6.hook_candidates.pre_hooks ∧
    onC6.hook_candidates.pre_hooks = [candC6] ∧
    candC6.target = hookC6.target ∧ candC6.calldata = hookC6.calldata ∧
    candC6.gas_limit ≠ hookC6.gas_limit := by decide

theorem hook_execution_loop_find (hook : Hook) (l : List Hook) :
    hook_execution_loop hook l =
      match l.find? (fun c => c.target == hook.target && c.calldata == hook.calldata) with
      | none => false
      | some c => !(c.gas_limit != 0 && decide (c.gas_limit < hook.gas_limit)) := by
  induction l with
  | nil => rfl
  | cons c rest ih =>
    rw [hook_execution_loop]
    by_cases hm : c.target = hook.target ∧ c.calldata = hook.calldata
    · rw [if_pos hm]
      rw [List.find?_cons_of_pos]
      · by_cases hg : c.gas_limit ≠ 0 ∧ c.gas_limit < hook.gas_limit
        · rw [if_pos hg]
          simp [hg.1, hg.2]
        · rw [if_neg hg]
          rcases not_and_or.mp hg with hg1 | hg2
          · simp only [ne_eq, not_not] at hg1
            simp [hg1]
          · simp [hg2]
      · simp [hm.1, hm.2]
    · rw [if_neg hm]
      rw [List.find?_cons_of_neg]
      · exact ih
      · simp only [Bool.and_eq_true, beq_iff_eq, not_and]
        intro h1 h2
        exact absurd ⟨h1, h2⟩ hm

/-- Claim C6 as amended: an expected hook counts as executed exactly when
the first candidate matching it on target and calldata exists and has gas
limit 0 (unlimited) or at least the expected gas limit; equality of gas
limits is not required, and a first matching candidate with a non-zero gas
limit below the requirement fails without considering later candidates. -/
theorem C6_hook_execution_first_match (onc : OnchainSettlementData) (order_uid : HexB)
    (hook : Hook) (hook_type : String) :
    check_hook_execution onc order_uid hook hook_type =
      match (if hook_type = "pre" then onc.hook_candidates.pre_hooks
        else onc.hook_candidates.post_hooks).find?
          (fun c => c.target == hook.target && c.calldata == hook.calldata) with
      | none => false
      | some c => !(c.gas_limit != 0 && decide (c.gas_limit < hook.gas_limit)) := by
  rw [check_hook_execution]
  exact hook_execution_loop_find hook _

/-- Claim C10: with a non-empty hooks entry for an order uid that is not
among the off-chain trades, check_hooks raises ValueError instead of
returning a verdict, and inspect propagates that exception. -/
theorem C10_check_hooks_value_error :
    check_hooks onC10 ofC10 = Except.error PyErr.valueError ∧
    inspect onC10 ofC10 = Except.error (InspectError.pyErr PyErr.valueError) ∧
    ofC10.trades = [] ∧
    ofC10.order_hooks = [([9], ⟨[hookC10], []⟩)] := by decide

theorem pure_ok {ε α : Type} (a : α) : (pure a : Except ε α) = Except.ok a := rfl

/-- Claim C8: for surplus fee policies with both factors strictly between
0 and 1 and a trade of valid kind (with the data-model invariant of
positive limit amounts), reverse_protocol_fee adds to the buy amount (sell
orders), or subtracts from the sell amount (buy orders), the minimum of
the rounded surplus fee surplus * factor / (1 - factor) and the rounded
volume fee volume * max_volume_factor / (1 - max_volume_factor) for sell
orders, denominator 1 + max_volume_factor for buy orders, all in exact
rational arithmetic with round half to even. -/
theorem C8_surplus_fee_formula (sf smvf : ℚ) (t : OnchainTrade)
    (hsf0 : 0 < sf) (hsf1 : sf < 1) (hv0 : 0 < smvf) (hv1 : smvf < 1)
    (hls : 0 < t.limit_sell_amount) (hlb : 0 < t.limit_buy_amount) :
    (t.kind = "sell" → ∃ s v : ℤ, t.surplus = Except.ok s ∧ t.volume = Except.ok v ∧
      reverse_protocol_fee (FeePolicy.surplusFee sf smvf) t = Except.ok
        { t with buy_amount := (t.buy_amount +
            min (pyRound ((s : ℚ) * sf / (1 - sf)))
              (pyRound ((v : ℚ) * smvf / (1 - smvf)))) }) ∧
    (t.kind = "buy" → ∃ s v : ℤ, t.surplus = Except.ok s ∧ t.volume = Except.ok v ∧
      reverse_protocol_fee (FeePolicy.surplusFee sf smvf) t = Except.ok
        { t with sell_amount := (t.sell_amount -
            min (pyRound ((s : ℚ) * sf / (1 - sf)))
              (pyRound ((v : ℚ) * smvf / (1 + smvf)))) }) := by
  have hsf : (1 : ℚ) - sf ≠ 0 := sub_ne_zero.mpr (by linarith)
  have hva : (1 : ℚ) - smvf ≠ 0 := sub_ne_zero.mpr (by linarith)
  have hvb : (1 : ℚ) + smvf ≠ 0 := by positivity
  constructor
  · intro hk
    have hsur : t.surplus = Except.ok (t.buy_amount -
        pyCeil ((t.limit_buy_amount : ℚ) * ((t.sell_amount : ℚ) / (t.limit_sell_amount : ℚ)))) := by
      rw [OnchainTrade.surplus, if_pos hk, pyFrac, if_neg hls.ne', ok_bind]
      rfl
    have hvol : t.volume = Except.ok t.buy_amount := by
      rw [OnchainTrade.volume, if_pos hk]
    refine ⟨_, _, hsur, hvol, ?_⟩
    rw [reverse_protocol_fee, hsur, ok_bind, hvol, ok_bind, pyDiv, if_neg hsf, ok_bind,
      if_pos hk, pyDiv, if_neg hva, ok_bind]
    rfl
  · intro hk
    have hk2 : ¬ t.kind = "sell" := by rw [hk]; decide
    have hsur : t.surplus = Except.ok
        (pyTruncInt ((t.limit_sell_amount : ℚ) * ((t.buy_amount : ℚ) / (t.limit_buy_amount : ℚ))) -
          t.sell_amount) := by
      rw [OnchainTrade.surplus, if_neg hk2, if_pos hk, pyFrac, if_neg hlb.ne', ok_bind]
      rfl
    have hvol : t.volume = Except.ok t.sell_amount := by
      rw [OnchainTrade.volume, if_neg hk2, if_pos hk]
    refine ⟨_, _, hsur, hvol, ?_⟩
    rw [reverse_protocol_fee, hsur, ok_bind, hvol, ok_bind, pyDiv, if_neg hsf, ok_bind,
      if_neg hk2, if_pos hk, pyDiv, if_neg hvb, ok_bind]
    rfl

/-- Witness for C8 at tSell with both factors one half: the surplus is 5,
the volume 105, and the fee is the minimum of the two rounded fees. -/
theorem C8_surplus_fee_formula_witness :
    tSell.surplus = Except.ok 5 ∧ tSell.volume = Except.ok 105 ∧
    reverse_protocol_fee (FeePolicy.surplusFee (1/2) (1/2)) tSell = Except.ok
      { tSell with buy_amount := (tSell.buy_amount +
          min (pyRound (((5 : ℤ) : ℚ) * (1/2) / (1 - 1/2)))
            (pyRound (((105 : ℤ) : ℚ) * (1/2) / (1 - 1/2)))) } := by
  have hs5 : tSell.surplus = Except.ok 5 := by
    have h0 : tSell.surplus = Except.ok (105 -
        pyCeil (((200 : ℤ) : ℚ) * (((50 : ℤ) : ℚ) / ((100 : ℤ) : ℚ)))) := rfl
    rw [h0]
    simp only [Except.ok.injEq, pyCeil]
    norm_num
  have hv105 : tSell.volume = Except.ok 105 := rfl
  obtain ⟨s, v, hs, hv2, hr⟩ := (C8_surplus_fee_formula (1/2) (1/2) tSell (by norm_num)
    (by norm_num) (by norm_num) (by norm_num) (by decide) (by decide)).1 rfl
  have hs' : s = 5 := Except.ok.inj (hs.symm.trans hs5)
  have hv' : v = 105 := Except.ok.inj (hv2.symm.trans hv105)
  subst hs'
  subst hv'
  exact ⟨hs5, hv105, hr⟩

/-- Claim C9: whenever any fee policy's reverse_protocol_fee returns a
trade, that trade agrees with the input on order uid, owner, both tokens,
both limit amounts and kind, keeps the sell amount of a sell order and the
buy amount of a buy order, so at most the one remaining amount differs;
the input itself is untouched, the embedding being pure like the
deep-copy idiom of the source. -/
theorem C9_reverse_fee_frame (p : FeePolicy) (t t2 : OnchainTrade)
    (h : reverse_protocol_fee p t = Except.ok t2) :
    t2.order_uid = t.order_uid ∧ t2.owner = t.owner ∧ t2.sell_token = t.sell_token ∧
    t2.buy_token = t.buy_token ∧ t2.limit_sell_amount = t.limit_sell_amount ∧
    t2.limit_buy_amount = t.limit_buy_amount ∧ t2.kind = t.kind ∧
    (t.kind = "sell" → t2.sell_amount = t.sell_amount) ∧
    (t.kind = "buy" → t2.buy_amount = t.buy_amount) := by
  cases p with
  | volumeFee f =>
    rw [reverse_protocol_fee] at h
    obtain ⟨v, hv, h⟩ := except_bind_ok h
    by_cases hk : t.kind = "sell"
    · rw [if_pos hk] at h
      obtain ⟨q, hq, h⟩ := except_bind_ok h
      rw [pure_ok] at h
      have ht2 := (Except.ok.inj h).symm
      subst ht2
      exact ⟨rfl, rfl, rfl, rfl, rfl, rfl, rfl, fun _ => rfl,
        fun hk2 => absurd (hk ▸ hk2) (by decide)⟩
    · by_cases hk2 : t.kind = "buy"
      · rw [if_neg hk, if_pos hk2] at h
        obtain ⟨q, hq, h⟩ := except_bind_ok h
        rw [pure_ok] at h
        have ht2 := (Except.ok.inj h).symm
        subst ht2
        exact ⟨rfl, rfl, rfl, rfl, rfl, rfl, rfl,
          fun hkk => absurd (hk2 ▸ hkk) (by decide), fun _ => rfl⟩
      · rw [if_neg hk, if_neg hk2] at h
        exact Except.noConfusion h
  | surplusFee sf smvf =>
    rw [reverse_protocol_fee] at h
    obtain ⟨s, hs, h⟩ := except_bind_ok h
    obtain ⟨v, hv, h⟩ := except_bind_ok h
    obtain ⟨sq, hsq, h⟩ := except_bind_ok h
    by_cases hk : t.kind = "sell"
    · rw [if_pos hk] at h
      obtain ⟨vq, hvq, h⟩ := except_bind_ok h
      rw [pure_ok] at h
      have ht2 := (Except.ok.inj h).symm
      subst ht2
      exact ⟨rfl, rfl, rfl, rfl, rfl, rfl, rfl, fun _ => rfl,
        fun hk2 => absurd (hk ▸ hk2) (by decide)⟩
    · by_cases hk2 : t.kind = "buy"
      · rw [if_neg hk, if_pos hk2] at h
        obtain ⟨vq, hvq, h⟩ := except_bind_ok h
        rw [pure_ok] at h
        have ht2 := (Except.ok.inj h).symm
        subst ht2
        exact ⟨rfl, rfl, rfl, rfl, rfl, rfl, rfl,
          fun hkk => absurd (hk2 ▸ hkk) (by decide), fun _ => rfl⟩
      · rw [if_neg hk, if_neg hk2] at h
        exact Except.noConfusion h
  | priceImprovementFee pif pimv quote =>
    rw [reverse_protocol_fee] at h
    obtain ⟨pi, hpi, h⟩ := except_bind_ok h
    obtain ⟨v, hv, h⟩ := except_bind_ok h
    obtain ⟨pq, hpq, h⟩ := except_bind_ok h
    by_cases hk : t.kind = "sell"
    · rw [if_pos hk] at h
      obtain ⟨vq, hvq, h⟩ := except_bind_ok h
      rw [pure_ok] at h
      have ht2 := (Except.ok.inj h).symm
      subst ht2
      exact ⟨rfl, rfl, rfl, rfl, rfl, rfl, rfl, fun _ => rfl,
        fun hk2 => absurd (hk ▸ hk2) (by decide)⟩
    · by_cases hk2 : t.kind = "buy"
      · rw [if_neg hk, if_pos hk2] at h
        obtain ⟨vq, hvq, h⟩ := except_bind_ok h
        rw [pure_ok] at h
        have ht2 := (Except.ok.inj h).symm
        subst ht2
        exact ⟨rfl, rfl, rfl, rfl, rfl, rfl, rfl,
          fun hkk => absurd (hk2 ▸ hkk) (by decide), fun _ => rfl⟩
      · rw [if_neg hk, if_neg hk2] at h
        exact Except.noConfusion h

/-- Witness for C9: reversing a one-half volume fee on tSell yields t9,
which differs from tSell only in the buy amount. -/
theorem C9_reverse_fee_frame_witness :
    reverse_protocol_fee (FeePolicy.volumeFee (1/2)) tSell = Except.ok t9 ∧
    t9.order_uid = tSell.order_uid ∧ t9.sell_token = tSell.sell_token ∧
    t9.kind = tSell.kind ∧ t9.sell_amount = tSell.sell_amount := by
  have hvol : tSell.volume = Except.ok 105 := rfl
  have hd : ((1 : ℚ) - 1/2) ≠ 0 := by norm_num
  have hrev : reverse_protocol_fee (FeePolicy.volumeFee (1/2)) tSell = Except.ok t9 := by
    rw [reverse_protocol_fee, hvol, ok_bind, if_pos (show tSell.kind = "sell" from rfl),
      pyDiv, if_neg hd, ok_bind, pure_ok]
    rfl
  have h := C9_reverse_fee_frame (FeePolicy.volumeFee (1/2)) tSell t9 hrev
  exact ⟨hrev, h.1, h.2.2.1, h.2.2.2.2.2.2.1, h.2.2.2.2.2.2.2.1 rfl⟩

end CircuitBreaker
